import Mathlib

/-!
Verification of the `ansible-rs` concurrent SSH command runner.

Text (Rust `String` / `&str`) is modelled as `List Char`.  The two source
files are embedded in two namespaces:

* `Lib`  — `src/lib.rs`: the per-host session pipeline (`process_host`,
  `process_host_inner`) and the fan-out driver (`parallel_ssh_process`).
* `Misc` — `src/misc.rs`: the result sink (`incremental_save`) and the
  benchmark calibrator (`benchmark`).

A small model of the JSON grammar (serializer matching
`serde_json::to_string_pretty` for the `Response` struct, and a
recursive-descent parser) supports the round-trip claims about the
incrementally written result document.
-/

set_option maxHeartbeats 1000000

/-- `startsWith hay pat` : does `hay` begin with `pat`?  (Rust `str::starts_with`.) -/
def startsWith : List Char → List Char → Bool
  | _, [] => true
  | [], _ :: _ => false
  | c :: cs, p :: ps => c = p && startsWith cs ps

/-- `containsSub hay pat` : does `pat` occur as a contiguous substring of `hay`?
(Rust `str::contains`.) -/
def containsSub : List Char → List Char → Bool
  | [], pat => pat.isEmpty
  | c :: cs, pat => startsWith (c :: cs) pat || containsSub cs pat

/-- Rust `str::split(sep)`: the list of (possibly empty) fragments between
occurrences of `sep`.  `splitChar sep ""` is `[""]`, as in Rust. -/
def splitChar (sep : Char) : List Char → List (List Char)
  | [] => [[]]
  | c :: cs =>
    if c = sep then [] :: splitChar sep cs
    else
      match splitChar sep cs with
      | [] => [[c]]
      | h :: t => (c :: h) :: t

namespace Misc

/-- `Response` as declared in `src/misc.rs` (note: `process_time` is a `String` there). -/
structure Response where
  result : List Char
  hostname : List Char
  process_time : List Char
  status : Bool
deriving DecidableEq, Repr

/-- The upstream error signature `"[-42]"` checked by both the benchmark and the sink. -/
def sig42 : List Char := ['[', '-', '4', '2', ']']

/-- The upstream error signature `"[-19]"` checked by the sink. -/
def sig19 : List Char := ['[', '-', '1', '9', ']']

/-- The "our-side" test in `incremental_save`:
`!received.status && (result.contains("[-42]") || result.contains("[-19]"))`. -/
def ourSideError (r : Response) : Bool :=
  !r.status && (containsSub r.result sig42 || containsSub r.result sig19)

/-- `received.hostname.split(':').collect::<Vec<&str>>()[0]` from `incremental_save`. -/
def splitHeadColon (h : List Char) : List Char :=
  (splitChar ':' h).headD []

/-- Fixed text fragments written by `incremental_save` and by
`serde_json::to_string_pretty` for a `Response`. -/
def docOpen : List Char := ['[', '\r', '\n']

/-- The closing `"\n]"` written after the consuming loop. -/
def docClose : List Char := ['\n', ']']

/-- The `",\n"` appended after each pretty-printed record. -/
def recSep : List Char := [',', '\n']

/-- Observable state accumulated by `incremental_save`:
the two files' contents, the list of records saved to the primary document,
the list of side-ledger entries, the ok/error tallies, and the progress-bar
activity (`inc(1)` count and the tally messages shown). -/
structure SinkState where
  ok : Nat
  ko : Nat
  saved : List Response
  fileText : List Char
  ledgerEntries : List (List Char)
  ledgerText : List Char
  progressCount : Nat
  messages : List (Nat × Nat)
deriving DecidableEq, Repr

/-- Serialization of one `Response`, matching `serde_json::to_string_pretty`
(two-space indent, struct field order).  `Json.escapeStr` is defined below;
forward-declared here as the sink needs the record text. -/
def serializeResponseWith (esc : List Char → List Char) (r : Response) : List Char :=
  ['{', '\n', ' ', ' ', '"', 'r', 'e', 's', 'u', 'l', 't', '"', ':', ' ', '"'] ++
    esc r.result ++
  ['"', ',', '\n', ' ', ' ', '"', 'h', 'o', 's', 't', 'n', 'a', 'm', 'e', '"', ':', ' ', '"'] ++
    esc r.hostname ++
  ['"', ',', '\n', ' ', ' ', '"', 'p', 'r', 'o', 'c', 'e', 's', 's', '_', 't', 'i', 'm',
    'e', '"', ':', ' ', '"'] ++
    esc r.process_time ++
  ['"', ',', '\n', ' ', ' ', '"', 's', 't', 'a', 't', 'u', 's', '"', ':', ' '] ++
    (if r.status then ['t', 'r', 'u', 'e'] else ['f', 'a', 'l', 's', 'e']) ++
  ['\n', '}']

/-- One iteration of the `for _ in 0..queue_len` loop of `incremental_save`,
for a successfully received `Response`:
1. increment `ok` or `ko`;
2. if the outcome is a failure whose message contains `"[-42]"` or `"[-19]"`,
   write `hostname.split(':')[0]` and a newline to the side-ledger file and
   `continue`;
3. otherwise advance the progress bar, show the tallies, and append the
   pretty-printed record plus `",\n"` to the primary document. -/
def sinkStep (pretty : Response → List Char) (st : SinkState) (received : Response) :
    SinkState :=
  let st := if received.status then { st with ok := st.ok + 1 } else { st with ko := st.ko + 1 }
  let hostname := splitHeadColon received.hostname
  if !received.status &&
      (containsSub received.result sig42 || containsSub received.result sig19) then
    { st with
      ledgerEntries := st.ledgerEntries ++ [hostname]
      ledgerText := st.ledgerText ++ hostname ++ ['\n'] }
  else
    { st with
      progressCount := st.progressCount + 1
      messages := st.messages ++ [(st.ok, st.ko)]
      saved := st.saved ++ [received]
      fileText := st.fileText ++ pretty received ++ recSep }

/-- State at loop entry: `ok = ko = 0`, `"[\r\n"` already written to the
primary document, both files otherwise empty. -/
def sinkInit : SinkState :=
  { ok := 0, ko := 0, saved := [], fileText := docOpen, ledgerEntries := []
    ledgerText := [], progressCount := 0, messages := [] }

/-- `incremental_save` consuming the whole completion stream `rs`
(every `rx.recv()` succeeds, i.e. the run completes normally). -/
def incrementalSave (pretty : Response → List Char) (rs : List Response) : SinkState :=
  rs.foldl (sinkStep pretty) sinkInit

/-- The primary document after the closing `"\n]"` has been written. -/
def incrementalSaveDocument (pretty : Response → List Char) (rs : List Response) :
    List Char :=
  (incrementalSave pretty rs).fileText ++ docClose

/- ===== Benchmark calibrator (`benchmark` in src/misc.rs) ===== -/

/-- Host addresses; `Ipv4Addr` modelled abstractly by `Nat`. -/
abbrev Ipv4Addr := Nat

/-- One probe round of the calibrator: the concurrency ceiling used
(`rate_numeric`, an `isize`), the probe subset, and the number of
`"[-42]"`-signature failures observed. -/
structure BenchRound where
  rate : Int
  probed : List Ipv4Addr
  ko : Nat
deriving DecidableEq, Repr

/-- Result of a `benchmark` call: a fatal error (printed, `exit(1)`) when the
host collection is empty, otherwise the sequence of probe rounds run. -/
inductive BenchResult where
  | fatalEmpty
  | rounds (rs : List BenchRound)
deriving DecidableEq, Repr

/-- `rate_numeric` is initialised to `2`. -/
def initialRate : Int := 2

/-- `bench_hosts_number` is initialised to `10`. -/
def initialBenchHostsNumber : Nat := 10

/-- The probe-subset update executed after `rate_numeric += 1`:
`bench_hosts_number * ((rate_numeric as usize - 1) / rate_numeric as usize)`
— note the integer division is inside the parentheses, so it is performed
*before* the multiplication. -/
def nextBenchHostsNumber (benchHostsNumber : Nat) (newRate : Int) : Nat :=
  benchHostsNumber * ((newRate.toNat - 1) / newRate.toNat)

/-- `ko` counting inside a round: failures whose `result` contains `"[-42]"`. -/
def countOverload (rs : List Response) : Nat :=
  rs.countP (fun r => !r.status && containsSub r.result sig42)

/-- The `error_rate <= 10.0` half of the loop guard.  `error_rate` starts at
`0.0` (`none`); after a round it is `ko as f64 / slice_len as f64`
(`some (ko, len)`).  For `len ≠ 0` the quotient lies in `[0, 1]` (as
`ko ≤ len`), so the `f64` comparison with `10.0` is exact and equals the
integer comparison `ko ≤ 10 * len` (see `errorRateGuard_iff` below for the
rational-number characterization); for `len = 0` the Rust expression is
`0.0/0.0 = NaN` (or `+inf` when `ko > 0`), and `NaN <= 10.0`
(resp. `inf <= 10.0`) is `false`. -/
def errorRateGuard : Option (Nat × Nat) → Bool
  | none => true
  | some (ko, len) => if len = 0 then false else decide (ko ≤ 10 * len)

/-- The `while` loop of `benchmark`.  `probe` stands for the
`process_host` call from the (external) `host_processing` module: given the
current rate limit and a host it yields that host's `Response`.  The fuel is
an upper bound on the iteration count; `rate` grows by one per round and the
guard requires `rate ≤ threads`, so `threads + 2` iterations can never be
exhausted. -/
def benchLoop (probe : Int → Ipv4Addr → Response) (threads : Nat) :
    Nat → Int → Option (Nat × Nat) → Nat → List Ipv4Addr → List BenchRound
  | 0, _, _, _, _ => []
  | fuel + 1, rate, errState, benchHostsNumber, hostsVec =>
    if errorRateGuard errState && rate ≤ (threads : Int) then
      let sliceSize :=
        if hostsVec.length ≤ benchHostsNumber then hostsVec.length else benchHostsNumber
      let slice := hostsVec.take sliceSize
      let res := slice.map (probe rate)
      let ko := countOverload res
      let newRate := rate + 1
      benchLoop probe threads fuel newRate (some (ko, slice.length))
        (nextBenchHostsNumber benchHostsNumber newRate) hostsVec
        |> (⟨rate, slice, ko⟩ :: ·)
    else []

/-- `benchmark(hosts, tx, threads_number)`: exits fatally on an empty host
map, otherwise runs the calibration loop over the map's key list. -/
def benchmark (probe : Int → Ipv4Addr → Response) (hosts : List Ipv4Addr)
    (threads_number : Nat) : BenchResult :=
  if hosts.isEmpty then .fatalEmpty
  else .rounds (benchLoop probe threads_number (threads_number + 2) initialRate none
    initialBenchHostsNumber hosts)

end Misc

namespace Lib

/-- `Response` as declared in `src/lib.rs` (`process_time: Duration`,
modelled in milliseconds). -/
structure Response where
  result : List Char
  hostname : List Char
  process_time : Nat
  status : Bool
deriving DecidableEq, Repr

/-- `ParallelSshProps`: the run configuration, immutable for one fan-out call.
Durations are in milliseconds. -/
structure ParallelSshProps where
  maximum_connections : Nat
  agent_parallelism : Nat
  timeout_socket : Nat
  timeout_ssh : Nat
deriving DecidableEq, Repr

/-- Observable events of one pipeline run, in program order.  Semaphore
tickets: `acqSession`/`relSession` for `threads_pool` (`_threads_guard`,
released when its scope ends on any exit path), `acqAgent`/`relAgent` for
`agent_pool` (`guard`, released by `drop(guard)` on success or by scope exit
on failure).  `connectAttempt` and `sessionSetTimeout` record the timeout
values actually passed to `TcpStream::connect_timeout` and
`Session::set_timeout`. -/
inductive Ev where
  | acqSession
  | relSession
  | acqAgent
  | relAgent
  | resolveAddr
  | connectAttempt (timeoutMs : Nat)
  | sessionSetTimeout (ms : Nat)
  | handshakeOp
  | agentConnectOp
  | userauthOp
  | channelOp
  | execOp
  | readOp
deriving DecidableEq, Repr

/-- Environment for one pipeline run: the outcome of each fallible external
call, in the order `process_host_inner` makes them.  An `.error e` carries
the upstream error's display text. -/
structure SshStages where
  to_socket_addrs : Except (List Char) (Option Unit)
  connect_timeout : Except (List Char) Unit
  async_new : Except (List Char) Unit
  session_new : Except Unit Unit
  set_tcp_stream : Except (List Char) Unit
  handshake : Except (List Char) Unit
  agent : Except (List Char) Unit
  agent_connect : Except (List Char) Unit
  userauth_agent : Except (List Char) Unit
  channel_session : Except (List Char) Unit
  exec : Except (List Char) Unit
  read_to_string : Except (List Char) (List Char)
deriving Repr

/-- The hardcoded `const TIMEOUT: u32 = 6000` passed to `sess.set_timeout`. -/
def hardcodedSessionTimeout : Nat := 6000

def msgFailedConvertingAddress : List Char :=
  "Failed converting address".toList
def msgErrorInitializingSession : List Char :=
  "Error initializing session".toList
def msgHandshake (e : List Char) : List Char :=
  "Failed establishing handshake: ".toList ++ e
def msgAgent (e : List Char) : List Char :=
  "Failed connecting to agent: ".toList ++ e
def msgUserauth (e : List Char) : List Char :=
  "Error connecting via agent: ".toList ++ e
def msgChannel (e : List Char) : List Char :=
  "Failed opening channel: ".toList ++ e
def msgExec (e : List Char) : List Char :=
  "Failed executing command in channel: ".toList ++ e
def msgRead (e : List Char) : List Char :=
  "Error reading result of work: ".toList ++ e

/-- `process_host_inner`: the session pipeline.  Mirrors the source line by
line; each `?`-style early return drops the guards in scope (in reverse
declaration order: agent guard, then session guard), which the trace records
as the corresponding release events.  Returns the `Result<String, Error>`
value together with the event trace. -/
def process_host_inner (cfg : ParallelSshProps) (st : SshStages) :
    Except (List Char) (List Char) × List Ev :=
  -- let _threads_guard = threads_pool.acquire().await;
  let t := [Ev.acqSession]
  -- let address = &hostname.to_socket_addrs()?.next().ok_or(...)?;
  let t := t ++ [Ev.resolveAddr]
  match st.to_socket_addrs with
  | .error e => (.error e, t ++ [Ev.relSession])
  | .ok none => (.error msgFailedConvertingAddress, t ++ [Ev.relSession])
  | .ok (some _) =>
  -- let sync_stream = TcpStream::connect_timeout(&address, timeout_socket)?;
  let t := t ++ [Ev.connectAttempt cfg.timeout_socket]
  match st.connect_timeout with
  | .error e => (.error e, t ++ [Ev.relSession])
  | .ok _ =>
  -- let tcp = Async::new(sync_stream)?;
  match st.async_new with
  | .error e => (.error e, t ++ [Ev.relSession])
  | .ok _ =>
  -- let mut sess = Session::new().map_err(|_e| ...)?;
  match st.session_new with
  | .error _ => (.error msgErrorInitializingSession, t ++ [Ev.relSession])
  | .ok _ =>
  -- sess.set_timeout(TIMEOUT);
  let t := t ++ [Ev.sessionSetTimeout hardcodedSessionTimeout]
  -- sess.set_tcp_stream(tcp)?;
  match st.set_tcp_stream with
  | .error e => (.error e, t ++ [Ev.relSession])
  | .ok _ =>
  -- sess.handshake().await.map_err(...)?;
  let t := t ++ [Ev.handshakeOp]
  match st.handshake with
  | .error e => (.error (msgHandshake e), t ++ [Ev.relSession])
  | .ok _ =>
  -- let guard = agent_pool.acquire().await;
  let t := t ++ [Ev.acqAgent]
  -- let mut agent = sess.agent().map_err(...)?;
  match st.agent with
  | .error e => (.error (msgAgent e), t ++ [Ev.relAgent, Ev.relSession])
  | .ok _ =>
  -- agent.connect().await?;
  let t := t ++ [Ev.agentConnectOp]
  match st.agent_connect with
  | .error e => (.error e, t ++ [Ev.relAgent, Ev.relSession])
  | .ok _ =>
  -- sess.userauth_agent("scan").await.map_err(...)?;
  let t := t ++ [Ev.userauthOp]
  match st.userauth_agent with
  | .error e => (.error (msgUserauth e), t ++ [Ev.relAgent, Ev.relSession])
  | .ok _ =>
  -- drop(guard);
  let t := t ++ [Ev.relAgent]
  -- let mut channel = sess.channel_session().await.map_err(...)?;
  let t := t ++ [Ev.channelOp]
  match st.channel_session with
  | .error e => (.error (msgChannel e), t ++ [Ev.relSession])
  | .ok _ =>
  -- channel.exec(&command).await.map_err(...)?;
  let t := t ++ [Ev.execOp]
  match st.exec with
  | .error e => (.error (msgExec e), t ++ [Ev.relSession])
  | .ok _ =>
  -- reader.read_to_string(&mut channel_buffer).await.map_err(...)?;
  let t := t ++ [Ev.readOp]
  match st.read_to_string with
  | .error e => (.error (msgRead e), t ++ [Ev.relSession])
  | .ok buf => (.ok buf, t ++ [Ev.relSession])

/-- `process_host`: wraps the pipeline result into a `Response`.  `elapsed`
is the wall-clock duration `Instant::now() - start_time` measured around the
inner call. -/
def process_host (cfg : ParallelSshProps) (hostname : List Char) (elapsed : Nat)
    (st : SshStages) : Response × List Ev :=
  let inner := process_host_inner cfg st
  (match inner.1 with
   | .ok a => { result := a, hostname := hostname, process_time := elapsed, status := true }
   | .error e => { result := e, hostname := hostname, process_time := elapsed, status := false },
   inner.2)

/-- `parallel_ssh_process`: one pipeline per host, all sharing the two
semaphores and the command.  Each host comes with its environment (stage
outcomes) and its measured elapsed time. -/
def parallel_ssh_process (cfg : ParallelSshProps)
    (hosts : List (List Char × SshStages × Nat)) : List (Response × List Ev) :=
  hosts.map (fun h => process_host cfg h.1 h.2.2 h.2.1)

/-- A fully successful stage environment (used for concrete evaluations). -/
def allOkStages : SshStages :=
  { to_socket_addrs := .ok (some ()), connect_timeout := .ok (), async_new := .ok ()
    session_new := .ok (), set_tcp_stream := .ok (), handshake := .ok ()
    agent := .ok (), agent_connect := .ok (), userauth_agent := .ok ()
    channel_session := .ok (), exec := .ok ()
    read_to_string := .ok "output".toList }

end Lib

namespace Json

/-- Hex digit used by the `\u00XX` escape (lower case, as `serde_json` emits). -/
def hexDigit (n : Nat) : Char :=
  if n = 0 then '0' else if n = 1 then '1' else if n = 2 then '2' else if n = 3 then '3'
  else if n = 4 then '4' else if n = 5 then '5' else if n = 6 then '6' else if n = 7 then '7'
  else if n = 8 then '8' else if n = 9 then '9' else if n = 10 then 'a' else if n = 11 then 'b'
  else if n = 12 then 'c' else if n = 13 then 'd' else if n = 14 then 'e' else 'f'

/-- Value of a hex digit, if any (accepting both cases, as JSON does). -/
def hexVal (c : Char) : Option Nat :=
  if c = '0' then some 0 else if c = '1' then some 1 else if c = '2' then some 2
  else if c = '3' then some 3 else if c = '4' then some 4 else if c = '5' then some 5
  else if c = '6' then some 6 else if c = '7' then some 7 else if c = '8' then some 8
  else if c = '9' then some 9 else if c = 'a' then some 10 else if c = 'b' then some 11
  else if c = 'c' then some 12 else if c = 'd' then some 13 else if c = 'e' then some 14
  else if c = 'f' then some 15 else if c = 'A' then some 10 else if c = 'B' then some 11
  else if c = 'C' then some 12 else if c = 'D' then some 13 else if c = 'E' then some 14
  else if c = 'F' then some 15 else none

/-- JSON string escaping as performed by `serde_json`: `"` and `\` get a
backslash, the control characters with short forms use them, any other
control character becomes `\u00XX`, everything else is emitted raw. -/
def escapeChar (c : Char) : List Char :=
  if c = '"' then ['\\', '"']
  else if c = '\\' then ['\\', '\\']
  else if c = '\x08' then ['\\', 'b']
  else if c = '\t' then ['\\', 't']
  else if c = '\n' then ['\\', 'n']
  else if c = '\x0c' then ['\\', 'f']
  else if c = '\r' then ['\\', 'r']
  else if c.toNat < 32 then ['\\', 'u', '0', '0', hexDigit (c.toNat / 16), hexDigit (c.toNat % 16)]
  else [c]

def escapeStr (s : List Char) : List Char := (s.map escapeChar).flatten

/-- `serde_json::to_string_pretty` for a `misc::Response`. -/
def serializeResponse : Misc.Response → List Char :=
  Misc.serializeResponseWith escapeStr

/-- Whitespace skipping of the JSON grammar. -/
def skipWs : List Char → List Char
  | ' ' :: r => skipWs r
  | '\n' :: r => skipWs r
  | '\r' :: r => skipWs r
  | '\t' :: r => skipWs r
  | s => s

/-- Expect the literal `pat` at the head of the input; return the rest. -/
def expectLit : List Char → List Char → Option (List Char)
  | [], s => some s
  | _ :: _, [] => none
  | p :: ps, c :: cs => if c = p then expectLit ps cs else none

/-- JSON string-literal body (after the opening quote): stops at the closing
quote, decodes the escape sequences. -/
def parseStrBody : List Char → Option (List Char × List Char)
  | [] => none
  | c :: rest =>
    if c = '"' then some ([], rest)
    else if c = '\\' then
      match rest with
      | [] => none
      | e :: rest2 =>
        if e = '"' then (parseStrBody rest2).map (fun p => ('"' :: p.1, p.2))
        else if e = '\\' then (parseStrBody rest2).map (fun p => ('\\' :: p.1, p.2))
        else if e = '/' then (parseStrBody rest2).map (fun p => ('/' :: p.1, p.2))
        else if e = 'b' then (parseStrBody rest2).map (fun p => ('\x08' :: p.1, p.2))
        else if e = 'f' then (parseStrBody rest2).map (fun p => ('\x0c' :: p.1, p.2))
        else if e = 'n' then (parseStrBody rest2).map (fun p => ('\n' :: p.1, p.2))
        else if e = 'r' then (parseStrBody rest2).map (fun p => ('\r' :: p.1, p.2))
        else if e = 't' then (parseStrBody rest2).map (fun p => ('\t' :: p.1, p.2))
        else if e = 'u' then
          match rest2 with
          | h1 :: h2 :: h3 :: h4 :: rest3 =>
            match hexVal h1, hexVal h2, hexVal h3, hexVal h4 with
            | some v1, some v2, some v3, some v4 =>
              (parseStrBody rest3).map
                (fun p => (Char.ofNat (v1 * 4096 + v2 * 256 + v3 * 16 + v4) :: p.1, p.2))
            | _, _, _, _ => none
          | _ => none
        else none
    else (parseStrBody rest).map (fun p => (c :: p.1, p.2))

/-- `ws* "key" ws* : ws*` — a fixed object key followed by a colon. -/
def parseKey (key : List Char) (s : List Char) : Option (List Char) :=
  match expectLit ('"' :: key ++ ['"']) (skipWs s) with
  | none => none
  | some s1 =>
    match skipWs s1 with
    | ':' :: s2 => some (skipWs s2)
    | _ => none

/-- A JSON string value (input already whitespace-stripped). -/
def parseStringValue : List Char → Option (List Char × List Char)
  | '"' :: s => parseStrBody s
  | _ => none

/-- A JSON boolean value (input already whitespace-stripped). -/
def parseBoolValue (s : List Char) : Option (Bool × List Char) :=
  match expectLit ['t', 'r', 'u', 'e'] s with
  | some s1 => some (true, s1)
  | none =>
    match expectLit ['f', 'a', 'l', 's', 'e'] s with
    | some s1 => some (false, s1)
    | none => none

/-- Expect `ws* ,` and return what follows. -/
def expectComma (s : List Char) : Option (List Char) :=
  match skipWs s with
  | ',' :: s1 => some s1
  | _ => none

/-- A JSON object of the exact field set and order that `serde_json`
serializes for `misc::Response` (whitespace between tokens arbitrary,
per the JSON grammar). -/
def parseResponseObj (s : List Char) : Option (Misc.Response × List Char) :=
  match skipWs s with
  | '{' :: s0 =>
    match parseKey ['r', 'e', 's', 'u', 'l', 't'] s0 with
    | none => none
    | some s1 =>
    match parseStringValue s1 with
    | none => none
    | some rv =>
    match expectComma rv.2 with
    | none => none
    | some s2 =>
    match parseKey ['h', 'o', 's', 't', 'n', 'a', 'm', 'e'] s2 with
    | none => none
    | some s3 =>
    match parseStringValue s3 with
    | none => none
    | some hv =>
    match expectComma hv.2 with
    | none => none
    | some s4 =>
    match parseKey ['p', 'r', 'o', 'c', 'e', 's', 's', '_', 't', 'i', 'm', 'e'] s4 with
    | none => none
    | some s5 =>
    match parseStringValue s5 with
    | none => none
    | some pv =>
    match expectComma pv.2 with
    | none => none
    | some s6 =>
    match parseKey ['s', 't', 'a', 't', 'u', 's'] s6 with
    | none => none
    | some s7 =>
    match parseBoolValue s7 with
    | none => none
    | some bv =>
    match skipWs bv.2 with
    | '}' :: s8 =>
      some ({ result := rv.1, hostname := hv.1, process_time := pv.1, status := bv.1 }, s8)
    | _ => none
  | _ => none

/-- The element list of a JSON array of `Response` objects: after one element,
either `ws* ,` and (mandatorily) another element, or `ws* ]`.  A comma
followed by `]` — a trailing comma — is therefore rejected, exactly as in the
JSON grammar.  Fuel bounds the element count. -/
def parseArrayElems : Nat → List Char → Option (List Misc.Response × List Char)
  | 0, _ => none
  | fuel + 1, s =>
    match parseResponseObj s with
    | none => none
    | some (r, s1) =>
      match skipWs s1 with
      | ']' :: s2 => some ([r], s2)
      | ',' :: s2 =>
        match parseArrayElems fuel s2 with
        | none => none
        | some (rs, s3) => some (r :: rs, s3)
      | _ => none

/-- A complete document holding one JSON array of `Response` objects and
nothing else. -/
def parseDocument (s : List Char) : Option (List Misc.Response) :=
  match skipWs s with
  | '[' :: s0 =>
    match skipWs s0 with
    | ']' :: s1 => if skipWs s1 = [] then some [] else none
    | _ =>
      match parseArrayElems (s.length + 1) s0 with
      | none => none
      | some (rs, s1) => if skipWs s1 = [] then some rs else none
  | _ => none

end Json

namespace Misc

/-- Concrete completion stream for the sink scenario: 5 successes and
2 failures, exactly one of which carries an our-side signature. -/
def c6Stream : List Response :=
  [ ⟨"load 0.1".toList, "10.0.0.1:22".toList, "1s".toList, true⟩,
    ⟨"load 0.2".toList, "10.0.0.2:22".toList, "1s".toList, true⟩,
    ⟨"Failed connecting to agent: [-42] agent busy".toList, "10.0.0.3:22".toList,
      "1s".toList, false⟩,
    ⟨"load 0.3".toList, "10.0.0.4:22".toList, "1s".toList, true⟩,
    ⟨"load 0.4".toList, "10.0.0.5:22".toList, "1s".toList, true⟩,
    ⟨"Failed establishing handshake: timed out".toList, "10.0.0.6:22".toList,
      "2s".toList, false⟩,
    ⟨"load 0.5".toList, "10.0.0.7:22".toList, "1s".toList, true⟩ ]

/-- A failure matching the `"[-19]"` our-side signature (diverted to the ledger). -/
def c7Diverted : Response :=
  ⟨"session error [-19] temporarily unavailable".toList, "10.0.0.8:22".toList,
    "1s".toList, false⟩

/-- A single successful outcome, for the document round-trip counterexample. -/
def c8Record : Response :=
  ⟨"hello".toList, "10.0.0.9:22".toList, "1s".toList, true⟩

/-- Probe oracle where, at every concurrency level, hosts `0..4` succeed and
hosts `5..9` fail with the overload signature `"[-42]"`: a 50% overload rate
on the initial ten-host probe subset. -/
def c2Probe : Int → Ipv4Addr → Response := fun _rate h =>
  if h < 5 then ⟨"ok".toList, "host".toList, "1s".toList, true⟩
  else ⟨"Failed connecting to agent: [-42] failure".toList, "host".toList, "1s".toList, false⟩

end Misc

namespace Lib

/-- A run configuration whose `timeout_ssh` is the builder default of 600 s
(600000 ms), clearly different from the hardcoded 6000 ms constant. -/
def c4Config : ParallelSshProps :=
  { maximum_connections := 100, agent_parallelism := 1
    timeout_socket := 1000, timeout_ssh := 600000 }

end Lib

/-! ## Supporting lemmas -/

namespace Misc

theorem splitChar_ne_nil (sep : Char) (l : List Char) : splitChar sep l ≠ [] := by
  induction l with
  | nil => simp [splitChar]
  | cons c cs ih =>
    simp only [splitChar]
    by_cases hc : c = sep
    · simp [hc]
    · simp only [hc, if_false]
      cases hsp : splitChar sep cs with
      | nil => exact absurd hsp ih
      | cons h t => simp

theorem splitHeadColon_eq_takeWhile (h : List Char) :
    splitHeadColon h = h.takeWhile (fun c => c != ':') := by
  induction h with
  | nil => rfl
  | cons c t ih =>
    simp only [splitHeadColon, splitChar] at ih ⊢
    by_cases hc : c = ':'
    · simp [hc]
    · simp only [hc, if_false]
      cases hsp : splitChar ':' t with
      | nil => exact absurd hsp (splitChar_ne_nil ':' t)
      | cons h0 t0 =>
        rw [hsp] at ih
        simp only [List.headD_cons] at ih
        simp [List.takeWhile_cons, hc, ih]

theorem takeWhile_ne_self_of_colon_mem (h : List Char) (hm : ':' ∈ h) :
    h.takeWhile (fun c => c != ':') ≠ h := by
  induction h with
  | nil => simp at hm
  | cons c t ih =>
    by_cases hc : c = ':'
    · simp [List.takeWhile_cons, hc]
    · have hmt : ':' ∈ t := by
        rcases List.mem_cons.mp hm with h1 | h1
        · exact absurd h1.symm hc
        · exact h1
      simp only [List.takeWhile_cons, bne_iff_ne, ne_eq, hc, not_false_eq_true, if_pos,
        List.cons.injEq, true_and]
      exact ih hmt

theorem sink_ok_eq (pretty : Response → List Char) (rs : List Response) :
    ∀ st : SinkState, (rs.foldl (sinkStep pretty) st).ok
      = st.ok + rs.countP (fun r => r.status) := by
  induction rs with
  | nil => intro st; simp
  | cons r rs ih =>
    intro st
    rw [List.foldl_cons, ih]
    cases hs : r.status <;>
      cases h42 : containsSub r.result sig42 <;>
        cases h19 : containsSub r.result sig19 <;>
          simp [sinkStep, hs, h42, h19, List.countP_cons] <;> omega

theorem sink_ko_eq (pretty : Response → List Char) (rs : List Response) :
    ∀ st : SinkState, (rs.foldl (sinkStep pretty) st).ko
      = st.ko + rs.countP (fun r => !r.status) := by
  induction rs with
  | nil => intro st; simp
  | cons r rs ih =>
    intro st
    rw [List.foldl_cons, ih]
    cases hs : r.status <;>
      cases h42 : containsSub r.result sig42 <;>
        cases h19 : containsSub r.result sig19 <;>
          simp [sinkStep, hs, h42, h19, List.countP_cons] <;> omega

theorem sink_saved_eq (pretty : Response → List Char) (rs : List Response) :
    ∀ st : SinkState, (rs.foldl (sinkStep pretty) st).saved
      = st.saved ++ rs.filter (fun r => !ourSideError r) := by
  induction rs with
  | nil => intro st; simp
  | cons r rs ih =>
    intro st
    rw [List.foldl_cons, ih]
    cases hs : r.status <;>
      cases h42 : containsSub r.result sig42 <;>
        cases h19 : containsSub r.result sig19 <;>
          simp [sinkStep, ourSideError, hs, h42, h19, List.filter_cons]

theorem sink_fileText_eq (pretty : Response → List Char) (rs : List Response) :
    ∀ st : SinkState, (rs.foldl (sinkStep pretty) st).fileText
      = st.fileText
        ++ ((rs.filter (fun r => !ourSideError r)).map (fun r => pretty r ++ recSep)).flatten := by
  induction rs with
  | nil => intro st; simp
  | cons r rs ih =>
    intro st
    rw [List.foldl_cons, ih]
    cases hs : r.status <;>
      cases h42 : containsSub r.result sig42 <;>
        cases h19 : containsSub r.result sig19 <;>
          simp [sinkStep, ourSideError, hs, h42, h19, List.filter_cons]

theorem sink_ledgerEntries_eq (pretty : Response → List Char) (rs : List Response) :
    ∀ st : SinkState, (rs.foldl (sinkStep pretty) st).ledgerEntries
      = st.ledgerEntries ++ (rs.filter ourSideError).map (fun r => splitHeadColon r.hostname) := by
  induction rs with
  | nil => intro st; simp
  | cons r rs ih =>
    intro st
    rw [List.foldl_cons, ih]
    cases hs : r.status <;>
      cases h42 : containsSub r.result sig42 <;>
        cases h19 : containsSub r.result sig19 <;>
          simp [sinkStep, ourSideError, hs, h42, h19, List.filter_cons]

theorem sink_ledgerText_eq (pretty : Response → List Char) (rs : List Response) :
    ∀ st : SinkState, (rs.foldl (sinkStep pretty) st).ledgerText
      = st.ledgerText
        ++ ((rs.filter ourSideError).map (fun r => splitHeadColon r.hostname ++ ['\n'])).flatten := by
  induction rs with
  | nil => intro st; simp
  | cons r rs ih =>
    intro st
    rw [List.foldl_cons, ih]
    cases hs : r.status <;>
      cases h42 : containsSub r.result sig42 <;>
        cases h19 : containsSub r.result sig19 <;>
          simp [sinkStep, ourSideError, hs, h42, h19, List.filter_cons]

theorem sink_progress_eq (pretty : Response → List Char) (rs : List Response) :
    ∀ st : SinkState, (rs.foldl (sinkStep pretty) st).progressCount
      = st.progressCount + (rs.filter (fun r => !ourSideError r)).length := by
  induction rs with
  | nil => intro st; simp
  | cons r rs ih =>
    intro st
    rw [List.foldl_cons, ih]
    cases hs : r.status <;>
      cases h42 : containsSub r.result sig42 <;>
        cases h19 : containsSub r.result sig19 <;>
          simp [sinkStep, ourSideError, hs, h42, h19, List.filter_cons] <;> omega

theorem sink_messages_len_eq (pretty : Response → List Char) (rs : List Response) :
    ∀ st : SinkState, (rs.foldl (sinkStep pretty) st).messages.length
      = st.messages.length + (rs.filter (fun r => !ourSideError r)).length := by
  induction rs with
  | nil => intro st; simp
  | cons r rs ih =>
    intro st
    rw [List.foldl_cons, ih]
    cases hs : r.status <;>
      cases h42 : containsSub r.result sig42 <;>
        cases h19 : containsSub r.result sig19 <;>
          simp [sinkStep, ourSideError, hs, h42, h19, List.filter_cons] <;> omega

end Misc

/-! ## Claim theorems: result sink -/

/-- Claim C6: when the sink consumes a stream of 5 successes and 2 failures,
exactly one of which matches an our-side signature, the primary document
holds 6 records, the side ledger exactly 1 hostname, `ok_count = 5` and
`error_count = 2`; in general failures matching `"[-42]"` or `"[-19]"` are
diverted to the side ledger (hostname only) and excluded from the primary
document, while every other outcome is appended to it. -/
theorem claim_c6_result_sink_classification :
    (∀ (pretty : Misc.Response → List Char) (rs : List Misc.Response),
        (Misc.incrementalSave pretty rs).saved = rs.filter (fun r => !Misc.ourSideError r)
      ∧ (Misc.incrementalSave pretty rs).ledgerEntries
          = (rs.filter Misc.ourSideError).map (fun r => Misc.splitHeadColon r.hostname)
      ∧ (Misc.incrementalSave pretty rs).ok = rs.countP (fun r => r.status)
      ∧ (Misc.incrementalSave pretty rs).ko = rs.countP (fun r => !r.status))
  ∧ ((Misc.incrementalSave Json.serializeResponse Misc.c6Stream).saved.length = 6
      ∧ (Misc.incrementalSave Json.serializeResponse Misc.c6Stream).ledgerEntries
          = ["10.0.0.3".toList]
      ∧ (Misc.incrementalSave Json.serializeResponse Misc.c6Stream).ok = 5
      ∧ (Misc.incrementalSave Json.serializeResponse Misc.c6Stream).ko = 2) := by
  constructor
  · intro pretty rs
    refine ⟨?_, ?_, ?_, ?_⟩
    · simpa [Misc.incrementalSave, Misc.sinkInit] using Misc.sink_saved_eq pretty rs Misc.sinkInit
    · simpa [Misc.incrementalSave, Misc.sinkInit] using Misc.sink_ledgerEntries_eq pretty rs Misc.sinkInit
    · simpa [Misc.incrementalSave, Misc.sinkInit] using Misc.sink_ok_eq pretty rs Misc.sinkInit
    · simpa [Misc.incrementalSave, Misc.sinkInit] using Misc.sink_ko_eq pretty rs Misc.sinkInit
  · exact ⟨by decide, by decide, by decide, by decide⟩

/-- Claim C7 counterexample: a stream holding a single diverted our-side
failure is consumed, yet the progress indicator is never advanced — the
`continue` in the diversion branch of `incremental_save` skips `total.inc(1)`,
so progress is not reported once per consumed item. -/
theorem claim_c7_counterexample :
    ¬ ((Misc.incrementalSave Json.serializeResponse [Misc.c7Diverted]).progressCount
        = [Misc.c7Diverted].length) := by decide

/-- Claim C7 as amended: the sink advances the progress indicator and shows
the running tallies exactly once per consumed item that is *not* diverted to
the side ledger; diverted our-side failures skip the progress report (though
they still enter the error tally, see C6). -/
theorem claim_c7_progress_amended :
    ∀ (pretty : Misc.Response → List Char) (rs : List Misc.Response),
      (Misc.incrementalSave pretty rs).progressCount
          = (rs.filter (fun r => !Misc.ourSideError r)).length
      ∧ (Misc.incrementalSave pretty rs).messages.length
          = (rs.filter (fun r => !Misc.ourSideError r)).length := by
  intro pretty rs
  constructor
  · simpa [Misc.incrementalSave, Misc.sinkInit] using Misc.sink_progress_eq pretty rs Misc.sinkInit
  · simpa [Misc.incrementalSave, Misc.sinkInit] using Misc.sink_messages_len_eq pretty rs Misc.sinkInit

/-- Claim C10: every line written to the side ledger is exactly the portion
of the outcome's hostname before the first `':'` (the port suffix stripped),
followed by a newline; and whenever the hostname contains a `':'`, the entry
written is never the full hostname. -/
theorem claim_c10_ledger_strips_port :
    (∀ (pretty : Misc.Response → List Char) (rs : List Misc.Response),
       (Misc.incrementalSave pretty rs).ledgerText
         = ((rs.filter Misc.ourSideError).map
             (fun r => r.hostname.takeWhile (fun c => c != ':') ++ ['\n'])).flatten)
  ∧ (∀ h : List Char, ':' ∈ h → Misc.splitHeadColon h ≠ h) := by
  constructor
  · intro pretty rs
    have := Misc.sink_ledgerText_eq pretty rs Misc.sinkInit
    simp only [Misc.incrementalSave]
    rw [this]
    simp [Misc.sinkInit, Misc.splitHeadColon_eq_takeWhile]
  · intro h hm
    rw [Misc.splitHeadColon_eq_takeWhile]
    exact Misc.takeWhile_ne_self_of_colon_mem h hm

/-- Witness for C10: instantiated at the ledger entry of the C6 scenario,
whose hostname `"10.0.0.3:22"` carries a port suffix. -/
theorem claim_c10_ledger_strips_port_witness :
    Misc.splitHeadColon "10.0.0.3:22".toList ≠ "10.0.0.3:22".toList :=
  claim_c10_ledger_strips_port.2 ("10.0.0.3:22".toList) (by decide)

/-! ## Claim theorems: benchmark calibrator -/

/-- Claim C9: invoked with an empty host collection, `benchmark` reports a
fatal configuration error and halts before any probing is attempted — the
result is `fatalEmpty`, with no probe round run, whatever the probe oracle
and the configured thread count. -/
theorem claim_c9_benchmark_empty_hosts_fatal :
    ∀ (probe : Int → Misc.Ipv4Addr → Misc.Response) (threads_number : Nat),
      Misc.benchmark probe [] threads_number = Misc.BenchResult.fatalEmpty := by
  intro probe threads_number
  simp [Misc.benchmark]

/-- Claim C2 (code bug): with ten hosts of which five always fail with the
overload signature — a 50% observed overload rate, far above 10% — the
calibrator does **not** stop at the threshold: after the 50% round at
concurrency 2 it probes concurrency 3 (over an, incidentally, empty subset)
because the guard compares the rate *fraction* `ko/size ∈ [0,1]` against the
literal `10.0`, so the rate-based exit can never fire on a nonempty subset. -/
theorem claim_c2_threshold_never_fires :
    Misc.benchmark Misc.c2Probe (List.range 10) 10
      = Misc.BenchResult.rounds
          [⟨2, List.range 10, 5⟩, ⟨3, [], 0⟩]
    ∧ ((5 : ℚ) / 10 > 10 / 100) := by
  exact ⟨by decide, by norm_num⟩

/-- Claim C3 (code bug): the probe-subset update multiplies by the integer
quotient `(concurrency-1)/concurrency`, which is `0` for every concurrency
≥ 2 — the division happens *before* the multiplication, so the next subset
size collapses to `0` instead of the claimed `floor(size*(c-1)/c)` (which
would be `6` for size 10, concurrency 3). The claimed starting parameters
(concurrency 2, subset 10) do match the code. -/
theorem claim_c3_shrink_formula :
    Misc.initialRate = 2
  ∧ Misc.initialBenchHostsNumber = 10
  ∧ Misc.nextBenchHostsNumber 10 3 = 0
  ∧ (10 * (3 - 1)) / 3 = 6 := by
  exact ⟨rfl, rfl, by decide, by decide⟩

/-- Rational-number characterization of the nonempty-subset loop guard:
with a nonempty probe subset, the guard holds iff `ko / len ≤ 10` over `ℚ`
— always true, as the rate is a fraction in `[0, 1]` compared against `10`. -/
theorem errorRateGuard_iff (ko len : Nat) :
    Misc.errorRateGuard (some (ko, len)) = true ↔ len ≠ 0 ∧ (ko : ℚ) / (len : ℚ) ≤ 10 := by
  rcases Nat.eq_zero_or_pos len with h0 | hpos
  · subst h0; simp [Misc.errorRateGuard]
  · have hlen : len ≠ 0 := Nat.pos_iff_ne_zero.mp hpos
    have hq : (0 : ℚ) < (len : ℚ) := by exact_mod_cast hpos
    simp only [Misc.errorRateGuard, hlen, if_neg, if_false, decide_eq_true_eq, ne_eq,
      not_false_eq_true, true_and]
    rw [div_le_iff₀ hq]
    constructor
    · intro h; exact_mod_cast le_trans (by exact_mod_cast h) (by linarith)
    · intro h; exact_mod_cast by
        have := h
        rw [show (10 : ℚ) * (len : ℚ) = ((10 * len : Nat) : ℚ) by push_cast; ring] at this
        exact_mod_cast this

/-! ## Claim theorems: session pipeline -/

namespace Lib

/-- Per-run trace facts for the session pipeline: the session ticket is
acquired first — before the address-resolution attempt — is acquired and
released exactly once, the release is the final event of every exit path,
and agent-ticket acquisitions and releases balance. -/
theorem trace_spec (cfg : ParallelSshProps) (st : SshStages) :
    (process_host_inner cfg st).2.take 2 = [Ev.acqSession, Ev.resolveAddr]
  ∧ (process_host_inner cfg st).2.getLast? = some Ev.relSession
  ∧ (process_host_inner cfg st).2.count Ev.acqSession = 1
  ∧ (process_host_inner cfg st).2.count Ev.relSession = 1
  ∧ (process_host_inner cfg st).2.count Ev.acqAgent
      = (process_host_inner cfg st).2.count Ev.relAgent := by
  obtain ⟨a1, a2, a3, a4, a5, a6, a7, a8, a9, a10, a11, a12⟩ := st
  rcases a1 with e1 | o1
  · exact ⟨rfl, rfl, rfl, rfl, rfl⟩
  rcases o1 with _ | u1
  · exact ⟨rfl, rfl, rfl, rfl, rfl⟩
  rcases a2 with e2 | u2
  · exact ⟨rfl, rfl, rfl, rfl, rfl⟩
  rcases a3 with e3 | u3
  · exact ⟨rfl, rfl, rfl, rfl, rfl⟩
  rcases a4 with e4 | u4
  · exact ⟨rfl, rfl, rfl, rfl, rfl⟩
  rcases a5 with e5 | u5
  · exact ⟨rfl, rfl, rfl, rfl, rfl⟩
  rcases a6 with e6 | u6
  · exact ⟨rfl, rfl, rfl, rfl, rfl⟩
  rcases a7 with e7 | u7
  · exact ⟨rfl, rfl, rfl, rfl, rfl⟩
  rcases a8 with e8 | u8
  · exact ⟨rfl, rfl, rfl, rfl, rfl⟩
  rcases a9 with e9 | u9
  · exact ⟨rfl, rfl, rfl, rfl, rfl⟩
  rcases a10 with e10 | u10
  · exact ⟨rfl, rfl, rfl, rfl, rfl⟩
  rcases a11 with e11 | u11
  · exact ⟨rfl, rfl, rfl, rfl, rfl⟩
  rcases a12 with e12 | buf
  · exact ⟨rfl, rfl, rfl, rfl, rfl⟩
  · exact ⟨rfl, rfl, rfl, rfl, rfl⟩

/-- `process_host` forwards the inner pipeline's trace unchanged. -/
theorem process_host_trace (cfg : ParallelSshProps) (hostname : List Char) (elapsed : Nat)
    (st : SshStages) :
    (process_host cfg hostname elapsed st).2 = (process_host_inner cfg st).2 := rfl

/-- One outcome per host, and the fan-out's session-ticket acquire/release
totals both equal the host count. -/
theorem fanout_counts (cfg : ParallelSshProps) (hosts : List (List Char × SshStages × Nat)) :
    (parallel_ssh_process cfg hosts).length = hosts.length
  ∧ ((parallel_ssh_process cfg hosts).map (fun p => p.2.count Ev.acqSession)).sum
      = hosts.length
  ∧ ((parallel_ssh_process cfg hosts).map (fun p => p.2.count Ev.relSession)).sum
      = hosts.length := by
  refine ⟨by simp [parallel_ssh_process], ?_, ?_⟩ <;>
  · induction hosts with
    | nil => simp [parallel_ssh_process]
    | cons h t ih =>
      simp only [parallel_ssh_process, List.map_cons, List.sum_cons] at ih ⊢
      rw [ih, process_host_trace]
      first
      | rw [(trace_spec cfg h.2.1).2.2.1]
      | rw [(trace_spec cfg h.2.1).2.2.2.1]
      simp only [List.length_cons]
      omega

end Lib

/-- Claim C1: every pipeline run produces exactly one outcome, acquires the
session ticket as its very first action (before address resolution), holds
it to the end (the release is the last event and happens exactly once on
every exit path, whatever stage fails), balances agent-ticket
acquire/release, and over a whole fan-out the session-ticket acquire and
release totals both equal the number of hosts. -/
theorem claim_c1_ticket_balance :
    (∀ (cfg : Lib.ParallelSshProps) (st : Lib.SshStages),
        (Lib.process_host_inner cfg st).2.take 2 = [Lib.Ev.acqSession, Lib.Ev.resolveAddr]
      ∧ (Lib.process_host_inner cfg st).2.getLast? = some Lib.Ev.relSession
      ∧ (Lib.process_host_inner cfg st).2.count Lib.Ev.acqSession = 1
      ∧ (Lib.process_host_inner cfg st).2.count Lib.Ev.relSession = 1
      ∧ (Lib.process_host_inner cfg st).2.count Lib.Ev.acqAgent
          = (Lib.process_host_inner cfg st).2.count Lib.Ev.relAgent)
  ∧ (∀ (cfg : Lib.ParallelSshProps) (hosts : List (List Char × Lib.SshStages × Nat)),
        (Lib.parallel_ssh_process cfg hosts).length = hosts.length
      ∧ ((Lib.parallel_ssh_process cfg hosts).map
            (fun p => p.2.count Lib.Ev.acqSession)).sum = hosts.length
      ∧ ((Lib.parallel_ssh_process cfg hosts).map
            (fun p => p.2.count Lib.Ev.relSession)).sum = hosts.length) :=
  ⟨Lib.trace_spec, Lib.fanout_counts⟩

/-- Claim C5: for every completed pipeline the outcome's `process_time` is
the measured start-to-completion duration regardless of outcome, the
hostname is the input host, and `status = true` iff `result` is the captured
command output while `status = false` iff `result` is the failure
description — exactly one of the two holds. -/
theorem claim_c5_outcome_invariant :
    ∀ (cfg : Lib.ParallelSshProps) (hostname : List Char) (elapsed : Nat)
      (st : Lib.SshStages),
      (Lib.process_host cfg hostname elapsed st).1.process_time = elapsed
    ∧ (Lib.process_host cfg hostname elapsed st).1.hostname = hostname
    ∧ ((Lib.process_host cfg hostname elapsed st).1.status = true
        ↔ ∃ out, (Lib.process_host_inner cfg st).1 = .ok out
            ∧ (Lib.process_host cfg hostname elapsed st).1.result = out)
    ∧ ((Lib.process_host cfg hostname elapsed st).1.status = false
        ↔ ∃ e, (Lib.process_host_inner cfg st).1 = .error e
            ∧ (Lib.process_host cfg hostname elapsed st).1.result = e) := by
  intro cfg hostname elapsed st
  cases hres : (Lib.process_host_inner cfg st).1 <;>
    simp [Lib.process_host, hres]

/-- Claim C4 (code bug): the socket connection does use the config's
`timeout_socket`, but the session timeout applied right after session
creation is the hardcoded constant `6000` ms — the config's `timeout_ssh`
(here the builder default, 600000 ms) is never applied. -/
theorem claim_c4_session_timeout_hardcoded :
    Lib.c4Config.timeout_ssh = 600000
  ∧ Lib.Ev.connectAttempt Lib.c4Config.timeout_socket
      ∈ (Lib.process_host_inner Lib.c4Config Lib.allOkStages).2
  ∧ Lib.Ev.sessionSetTimeout Lib.hardcodedSessionTimeout
      ∈ (Lib.process_host_inner Lib.c4Config Lib.allOkStages).2
  ∧ Lib.hardcodedSessionTimeout = 6000
  ∧ Lib.Ev.sessionSetTimeout Lib.c4Config.timeout_ssh
      ∉ (Lib.process_host_inner Lib.c4Config Lib.allOkStages).2 := by
  refine ⟨rfl, by decide, by decide, rfl, by decide⟩

/-! ## Claim theorems: primary-document round trip -/

namespace Json

theorem escapeStr_cons (c : Char) (cs : List Char) :
    escapeStr (c :: cs) = escapeChar c ++ escapeStr cs := by
  simp [escapeStr]

theorem hexVal_hexDigit : ∀ m : Nat, m < 16 → hexVal (hexDigit m) = some m := by decide

theorem skipWs_space (l : List Char) : skipWs (' ' :: l) = skipWs l := rfl
theorem skipWs_nl (l : List Char) : skipWs ('\n' :: l) = skipWs l := rfl
theorem skipWs_cr (l : List Char) : skipWs ('\r' :: l) = skipWs l := rfl
theorem skipWs_tab (l : List Char) : skipWs ('\t' :: l) = skipWs l := rfl
theorem skipWs_lbrace (l : List Char) : skipWs ('{' :: l) = '{' :: l := rfl
theorem skipWs_rbrace (l : List Char) : skipWs ('}' :: l) = '}' :: l := rfl
theorem skipWs_quote (l : List Char) : skipWs ('"' :: l) = '"' :: l := rfl
theorem skipWs_colon (l : List Char) : skipWs (':' :: l) = ':' :: l := rfl
theorem skipWs_comma (l : List Char) : skipWs (',' :: l) = ',' :: l := rfl
theorem skipWs_t (l : List Char) : skipWs ('t' :: l) = 't' :: l := rfl
theorem skipWs_f (l : List Char) : skipWs ('f' :: l) = 'f' :: l := rfl
theorem skipWs_nil : skipWs [] = [] := rfl

theorem expectLit_nil (s : List Char) : expectLit [] s = some s := rfl

theorem expectLit_cons_self (c : Char) (ps cs : List Char) :
    expectLit (c :: ps) (c :: cs) = expectLit ps cs := by
  simp [expectLit]

theorem parseStringValue_quote (s : List Char) :
    parseStringValue ('"' :: s) = parseStrBody s := rfl

theorem parseBoolValue_true (rest : List Char) :
    parseBoolValue ('t' :: 'r' :: 'u' :: 'e' :: rest) = some (true, rest) := rfl

theorem parseBoolValue_false (rest : List Char) :
    parseBoolValue ('f' :: 'a' :: 'l' :: 's' :: 'e' :: rest) = some (false, rest) := rfl

theorem expectComma_comma (l : List Char) : expectComma (',' :: l) = some l := rfl

theorem parseStrBody_quote (l : List Char) : parseStrBody ('"' :: l) = some ([], l) := by
  rw [parseStrBody.eq_def]; rfl

theorem parseStrBody_escQuote (l : List Char) :
    parseStrBody ('\\' :: '"' :: l) = (parseStrBody l).map (fun p => ('"' :: p.1, p.2)) := by
  rw [parseStrBody.eq_def]; rfl

theorem parseStrBody_escBackslash (l : List Char) :
    parseStrBody ('\\' :: '\\' :: l)
      = (parseStrBody l).map (fun p => ('\\' :: p.1, p.2)) := by
  rw [parseStrBody.eq_def]; rfl

theorem parseStrBody_escB (l : List Char) :
    parseStrBody ('\\' :: 'b' :: l) = (parseStrBody l).map (fun p => ('\x08' :: p.1, p.2)) := by
  rw [parseStrBody.eq_def]; rfl

theorem parseStrBody_escT (l : List Char) :
    parseStrBody ('\\' :: 't' :: l) = (parseStrBody l).map (fun p => ('\t' :: p.1, p.2)) := by
  rw [parseStrBody.eq_def]; rfl

theorem parseStrBody_escN (l : List Char) :
    parseStrBody ('\\' :: 'n' :: l) = (parseStrBody l).map (fun p => ('\n' :: p.1, p.2)) := by
  rw [parseStrBody.eq_def]; rfl

theorem parseStrBody_escF (l : List Char) :
    parseStrBody ('\\' :: 'f' :: l) = (parseStrBody l).map (fun p => ('\x0c' :: p.1, p.2)) := by
  rw [parseStrBody.eq_def]; rfl

theorem parseStrBody_escR (l : List Char) :
    parseStrBody ('\\' :: 'r' :: l) = (parseStrBody l).map (fun p => ('\r' :: p.1, p.2)) := by
  rw [parseStrBody.eq_def]; rfl

theorem parseStrBody_u00v (d3 d4 : Char) (v3 v4 : Nat) (h3 : hexVal d3 = some v3)
    (h4 : hexVal d4 = some v4) (l : List Char) :
    parseStrBody ('\\' :: 'u' :: '0' :: '0' :: d3 :: d4 :: l)
      = (parseStrBody l).map
          (fun p => (Char.ofNat (0 * 4096 + 0 * 256 + v3 * 16 + v4) :: p.1, p.2)) := by
  rw [parseStrBody.eq_def]
  simp [h3, h4, show hexVal '0' = some 0 from rfl]

theorem parseStrBody_other (c : Char) (l : List Char) (h1 : ¬ c = '"') (h2 : ¬ c = '\\') :
    parseStrBody (c :: l) = (parseStrBody l).map (fun p => (c :: p.1, p.2)) := by
  rw [parseStrBody.eq_def]
  simp [h1, h2]

/-- The string-literal lexer inverts the serializer's escaping: the body of
an escaped string followed by the closing quote parses back to the original
characters, leaving the rest of the input untouched. -/
theorem parseStrBody_escape (v rest : List Char) :
    parseStrBody (escapeStr v ++ '"' :: rest) = some (v, rest) := by
  induction v with
  | nil => exact parseStrBody_quote rest
  | cons c cs ih =>
    rw [escapeStr_cons, List.append_assoc]
    by_cases h1 : c = '"'
    · subst h1
      rw [show escapeChar '"' = ['\\', '"'] from rfl]
      simp only [List.cons_append, List.nil_append]
      rw [parseStrBody_escQuote, ih]
      rfl
    by_cases h2 : c = '\\'
    · subst h2
      rw [show escapeChar '\\' = ['\\', '\\'] from rfl]
      simp only [List.cons_append, List.nil_append]
      rw [parseStrBody_escBackslash, ih]
      rfl
    by_cases h3 : c = '\x08'
    · subst h3
      rw [show escapeChar '\x08' = ['\\', 'b'] from rfl]
      simp only [List.cons_append, List.nil_append]
      rw [parseStrBody_escB, ih]
      rfl
    by_cases h4 : c = '\t'
    · subst h4
      rw [show escapeChar '\t' = ['\\', 't'] from rfl]
      simp only [List.cons_append, List.nil_append]
      rw [parseStrBody_escT, ih]
      rfl
    by_cases h5 : c = '\n'
    · subst h5
      rw [show escapeChar '\n' = ['\\', 'n'] from rfl]
      simp only [List.cons_append, List.nil_append]
      rw [parseStrBody_escN, ih]
      rfl
    by_cases h6 : c = '\x0c'
    · subst h6
      rw [show escapeChar '\x0c' = ['\\', 'f'] from rfl]
      simp only [List.cons_append, List.nil_append]
      rw [parseStrBody_escF, ih]
      rfl
    by_cases h7 : c = '\r'
    · subst h7
      rw [show escapeChar '\r' = ['\\', 'r'] from rfl]
      simp only [List.cons_append, List.nil_append]
      rw [parseStrBody_escR, ih]
      rfl
    by_cases h8 : c.toNat < 32
    · have hd3 : hexVal (hexDigit (c.toNat / 16)) = some (c.toNat / 16) :=
        hexVal_hexDigit _ (by omega)
      have hd4 : hexVal (hexDigit (c.toNat % 16)) = some (c.toNat % 16) :=
        hexVal_hexDigit _ (Nat.mod_lt _ (by norm_num))
      rw [show escapeChar c
            = ['\\', 'u', '0', '0', hexDigit (c.toNat / 16), hexDigit (c.toNat % 16)] from by
          simp [escapeChar, h1, h2, h3, h4, h5, h6, h7, h8]]
      simp only [List.cons_append, List.nil_append]
      rw [parseStrBody_u00v _ _ _ _ hd3 hd4, ih]
      simp only [Option.map_some']
      rw [show 0 * 4096 + 0 * 256 + c.toNat / 16 * 16 + c.toNat % 16 = c.toNat from by omega,
        Char.ofNat_toNat]
    · rw [show escapeChar c = [c] from by simp [escapeChar, h1, h2, h3, h4, h5, h6, h7, h8]]
      simp only [List.cons_append, List.nil_append]
      rw [parseStrBody_other c _ h1 h2, ih]
      rfl

/-- A serialized `Response` record parses back unchanged, consuming the whole
record text. -/
theorem parseResponseObj_serialize (r : Misc.Response) :
    parseResponseObj (serializeResponse r) = some (r, []) := by
  obtain ⟨res, host, pt, status⟩ := r
  cases status <;>
    simp [serializeResponse, Misc.serializeResponseWith, parseResponseObj, parseKey,
      List.cons_append, List.nil_append, List.append_assoc,
      skipWs_space, skipWs_nl, skipWs_cr, skipWs_tab, skipWs_lbrace, skipWs_rbrace,
      skipWs_quote, skipWs_colon, skipWs_comma, skipWs_t, skipWs_f, skipWs_nil,
      expectLit_nil, expectLit_cons_self, parseStringValue_quote, parseStrBody_escape,
      parseBoolValue_true, parseBoolValue_false, expectComma_comma]

end Json

/-- Claim C8 counterexample: a normally completed run (closing delimiter
written) over a single successful outcome yields a primary document that is
*not* a well-formed JSON array — the `",\n"` written after the final record
leaves a trailing comma before the closing `]`, so the document does not
parse back to the outcome list. -/
theorem claim_c8_counterexample :
    Json.parseDocument (Misc.incrementalSaveDocument Json.serializeResponse [Misc.c8Record])
      = none := by decide

/-- Claim C8 as amended: every record written to the primary document
individually parses back to the original outcome with all fields (result,
hostname, process_time, status) unchanged; the document itself is the
records' pretty-printed texts each followed by `",\n"`, framed by `"[\r\n"`
and `"\n]"`, and it is a well-formed array in the empty case — with at least
one record the trailing comma after the last record makes it malformed (see
the counterexample). -/
theorem claim_c8_record_roundtrip_amended :
    (∀ r : Misc.Response,
        Json.parseResponseObj (Json.serializeResponse r) = some (r, []))
  ∧ (∀ (pretty : Misc.Response → List Char) (rs : List Misc.Response),
        Misc.incrementalSaveDocument pretty rs
          = Misc.docOpen
            ++ ((rs.filter (fun r => !Misc.ourSideError r)).map
                  (fun r => pretty r ++ Misc.recSep)).flatten
            ++ Misc.docClose)
  ∧ Json.parseDocument (Misc.incrementalSaveDocument Json.serializeResponse [])
      = some [] := by
  refine ⟨Json.parseResponseObj_serialize, ?_, by decide⟩
  intro pretty rs
  have := Misc.sink_fileText_eq pretty rs Misc.sinkInit
  simp only [Misc.incrementalSaveDocument, Misc.incrementalSave]
  rw [this]
  simp [Misc.sinkInit]
